import Mathlib

/-
Verification of the forecasting core of the cropify dashboard.

The development shallowly embeds the forecasting code found in
src/utils (prediction utilities), src/types and src/services/predictionService.ts.
JavaScript numbers are modelled as exact rationals (ℚ); where a claim is
genuinely about real-valued square roots (the confidence-interval estimator),
a parallel real-valued embedding using Real.sqrt is given.  JavaScript
division by zero yields NaN/Infinity and never throws; the rational
pipeline model renders such divisions with the division-by-zero-is-zero
convention of ℚ, and no pipeline theorem below depends on the value of a
zero-denominator division — only on facts such as "the result is not 1"
and "no exception is thrown", on which the convention and JavaScript
agree.  The one claim that is about finiteness itself (the regression,
claim C8) is settled against a second, Option-valued embedding
(linearRegressionJs below) that tracks non-finite values exactly.

Math.sqrt occurrences whose value no claim depends on (the correlation
denominator inside the autoregressive forecaster, and the volatility and the
time adjustment inside the service-level confidence attachment) are modelled
by an arbitrary function parameter `sq : ℚ → ℚ`; every theorem about those
code paths quantifies over `sq`, so the theorems hold for the actual square
root in particular.  Math.random inside the seasonal forecaster is modelled
by a draw function `rand : ℕ → ℚ` giving the value drawn at each loop step;
theorems quantify over `rand`.
-/

/-- CropPrice from src/types: one (commodity, year, month) observation or
prediction.  Optional TypeScript fields become Option fields. -/
structure CropPrice where
  id : String
  crop : String
  year : ℤ
  month : ℤ
  price : ℚ
  unit : String
  source : String
  region : Option String
  quality : Option String
  isPrediction : Option Bool
  confidenceInterval : Option (ℚ × ℚ)
deriving DecidableEq, Repr

/-- Result of linearRegression: slope, intercept and the coefficient of
determination. -/
structure LinReg where
  slope : ℚ
  intercept : ℚ
  r2 : ℚ
deriving DecidableEq, Repr

/-- Metadata block of a ForecastResult. -/
structure ForecastMetadata where
  methodsUsed : List String
  dataPoints : ℕ
  forecastHorizon : ℕ
deriving DecidableEq, Repr

/-- ForecastResult from src/types (lastUpdated dates of the model registry
are not observable by any claim and are omitted). -/
structure ForecastResult where
  predictions : List CropPrice
  confidence : ℚ
  model : String
  accuracy : ℚ
  metadata : ForecastMetadata
deriving DecidableEq, Repr

/-- Return type of PredictionService.validateDataForPrediction. -/
structure ValidationResult where
  isValid : Bool
  message : String
  recommendations : Option (List String)
deriving DecidableEq, Repr

/-- The modelType argument of generatePredictions. -/
inductive ModelType where
  | ensemble
  | seasonal
  | linear
deriving DecidableEq, Repr

/-- JavaScript `x || d` for an optionally-present number: `undefined` and
`0` (and NaN, not representable in ℚ) are falsy and select the default. -/
def jsOrQ (x : Option ℚ) (d : ℚ) : ℚ :=
  match x with
  | none => d
  | some v => if v = 0 then d else v

/-- JavaScript `s || d` for an optionally-present string: `undefined` and
the empty string are falsy and select the default. -/
def jsOrS (x : Option String) (d : String) : String :=
  match x with
  | none => d
  | some s => if s = "" then d else s

/-- JavaScript Math.round (half goes toward positive infinity), applied to
`p * 100` and divided back: the two-decimal rounding used throughout. -/
def round2 (q : ℚ) : ℚ := (⌊q * 100 + 1 / 2⌋ : ℚ) / 100

/-- JavaScript `new Date(y, m)` maps a year argument between 0 and 99 to
1900 + y before normalising the month; the data model of the spec
(year ≥ 1900) never hits that branch. -/
def jsYear (y : ℤ) : ℤ := if 0 ≤ y ∧ y ≤ 99 then y + 1900 else y

/-- Epoch month of `new Date(y, m - 1)`: months since year 0.  getTime is
strictly monotone in this quantity, so maximising getTime is maximising
this index. -/
def monthIdx (y m : ℤ) : ℤ := jsYear y * 12 + (m - 1)

/-- Epoch month without the two-digit-year adjustment; equal to monthIdx on
data-model-conformant years (≥ 1900). -/
def plainMonthIdx (y m : ℤ) : ℤ := y * 12 + (m - 1)

/-- Year of the date with the given epoch month (Date.getFullYear after
month normalisation). -/
def idxToYear (idx : ℤ) : ℤ := idx.ediv 12

/-- Month 1..12 of the date with the given epoch month (getMonth() + 1). -/
def idxToMonth (idx : ℤ) : ℤ := idx.emod 12 + 1

/-- Epoch month of the latest historical entry:
`Math.max(...data.map(item => new Date(item.year, item.month - 1).getTime()))`.
On an empty series JavaScript yields -Infinity; the model returns 0 there,
and every theorem that mentions this quantity assumes a non-empty series. -/
def lastIdx (data : List CropPrice) : ℤ :=
  match data.map (fun p => monthIdx p.year p.month) with
  | [] => 0
  | x :: xs => xs.foldl max x

/-- Latest epoch month without the two-digit-year adjustment. -/
def latestIdx (data : List CropPrice) : ℤ :=
  match data.map (fun p => plainMonthIdx p.year p.month) with
  | [] => 0
  | x :: xs => xs.foldl max x

/-- The crop label `historicalData[0]?.crop || 'unknown'`. -/
def headCrop (data : List CropPrice) : String :=
  jsOrS (data.head?.map (fun p => p.crop)) "unknown"

/-- The unit label `historicalData[0]?.unit || 'USD/metric ton'`. -/
def headUnit (data : List CropPrice) : String :=
  jsOrS (data.head?.map (fun p => p.unit)) "USD/metric ton"

/-- The region label `historicalData[0]?.region || 'Global'`. -/
def headRegion (data : List CropPrice) : String :=
  jsOrS (data.head?.bind (fun p => p.region)) "Global"

/-- Text of `historicalData[0]?.crop` inside a template literal: an absent
value renders as the string "undefined" (no || default there). -/
def headCropText (data : List CropPrice) : String :=
  match data.head? with
  | none => "undefined"
  | some p => p.crop

/-- Map with a running element index, `list.map((x, i) => f(i, x))`. -/
def mapWithIndex (f : ℕ → α → β) : ℕ → List α → List β
  | _, [] => []
  | i, a :: as => f i a :: mapWithIndex f (i + 1) as

theorem length_mapWithIndex (f : ℕ → α → β) :
    ∀ (n : ℕ) (l : List α), (mapWithIndex f n l).length = l.length := by
  intro n l
  induction l generalizing n with
  | nil => rfl
  | cons a as ih => simp [mapWithIndex, ih]

theorem map_mapWithIndex (f : ℕ → α → β) (g : β → γ) (g' : α → γ)
    (h : ∀ i a, g (f i a) = g' a) :
    ∀ (n : ℕ) (l : List α), (mapWithIndex f n l).map g = l.map g' := by
  intro n l
  induction l generalizing n with
  | nil => rfl
  | cons a as ih => simp [mapWithIndex, ih, h]

/-- linearRegression from the prediction utilities: closed-form OLS sums.
All reduces carry an initial accumulator, so no step can throw; with a zero
denominator JavaScript produces NaN/Infinity values (no exception), which
this rational version renders through division-by-zero-is-zero.  This
version feeds the forecasting pipeline, where no proved claim depends on a
zero-denominator value; finiteness statements about the regression itself
are made against linearRegressionJs further below, which tracks the
non-finite values exactly. -/
def linearRegression (xValues yValues : List ℚ) : LinReg :=
  let n : ℚ := xValues.length
  let sumX := xValues.sum
  let sumY := yValues.sum
  let sumXY := ((xValues.zip yValues).map (fun p => p.1 * p.2)).sum
  let sumXX := (xValues.map (fun x => x * x)).sum
  let slope := (n * sumXY - sumX * sumY) / (n * sumXX - sumX * sumX)
  let intercept := (sumY - slope * sumX) / n
  let yMean := sumY / n
  let totalSumSquares := (yValues.map (fun y => (y - yMean) ^ 2)).sum
  let residualSumSquares :=
    ((xValues.zip yValues).map (fun p => (p.2 - (slope * p.1 + intercept)) ^ 2)).sum
  { slope := slope, intercept := intercept,
    r2 := 1 - residualSumSquares / totalSumSquares }

/-- Denominator of the slope in linearRegression, `n·Σx² − (Σx)²`. -/
def linRegDenom (xValues : List ℚ) : ℚ :=
  (xValues.length : ℚ) * (xValues.map (fun x => x * x)).sum - xValues.sum * xValues.sum

/-- Modelled from the spec: the TrendEstimator of spec section 4.1, which
(unlike the source) is required to fail with DegenerateInputError when the
variance of x is zero.  Used only to state the refinement of claim C8. -/
def linearRegressionSpec (xValues yValues : List ℚ) : Except String LinReg :=
  if linRegDenom xValues = 0 then .error "DegenerateInputError"
  else .ok (linearRegression xValues yValues)

/-- exponentialSmoothing with factor alpha: s₀ = y₀, sᵢ = α·yᵢ + (1−α)·sᵢ₋₁.
JavaScript starts from `[prices[0]]`, which on an empty input is a
one-element `[undefined]` array; the model returns [] there (the smoothed
values are only consumed through the last element, and only on non-empty
input in every claim). -/
def exponentialSmoothing (prices : List ℚ) (alpha : ℚ) : List ℚ :=
  match prices with
  | [] => []
  | p0 :: rest =>
    (rest.foldl (fun acc y =>
      (alpha * y + (1 - alpha) * acc.headI) :: acc) [p0]).reverse

/-- validateDataForPrediction from PredictionService: a pure cascade of
length checks; no statement in it can throw. -/
def validateDataForPrediction (data : List CropPrice) : ValidationResult :=
  if data.length = 0 then
    { isValid := false
      message := "No historical data available"
      recommendations := some ["Select a crop with available data"] }
  else if data.length < 6 then
    { isValid := false
      message := "Insufficient data for reliable predictions"
      recommendations := some
        ["At least 6 months of historical data required",
         "Try selecting a longer time range"] }
  else if data.length < 12 then
    { isValid := true
      message := "Limited data available - predictions may be less accurate"
      recommendations := some
        ["Consider selecting a longer time range for better accuracy",
         "Predictions will use simplified models"] }
  else
    { isValid := true
      message := "Sufficient data available for accurate predictions"
      recommendations := none }

/-- calculateCorrelation: Pearson coefficient with an explicit zero guard on
the denominator.  The Math.sqrt of the variance product is modelled by the
abstract parameter sq. -/
def calculateCorrelation (sq : ℚ → ℚ) (x y : List ℚ) : ℚ :=
  let n : ℚ := x.length
  let sumX := x.sum
  let sumY := y.sum
  let sumXY := ((x.zip y).map (fun p => p.1 * p.2)).sum
  let sumXX := (x.map (fun v => v * v)).sum
  let sumYY := (y.map (fun v => v * v)).sum
  let numerator := n * sumXY - sumX * sumY
  let denominator := sq ((n * sumXX - sumX * sumX) * (n * sumYY - sumY * sumY))
  if denominator = 0 then 0 else numerator / denominator

/-- One step of the arimaForecast forecasting loop, followed by the
remaining steps; `ext` is the extendedPrices array. -/
def arimaLoop (coefficients : List ℚ) (order : ℕ) : ℕ → List ℚ → List ℚ
  | 0, _ => []
  | n + 1, ext =>
    let forecast0 :=
      ((List.range (min order ext.length)).map (fun j =>
        coefficients.getD j 0 * ext.getD (ext.length - 1 - j) 0)).sum
    let recentPrices := ext.drop (ext.length - 12)
    let avgPrice := recentPrices.sum / (recentPrices.length : ℚ)
    let forecast := forecast0 * (7 / 10) + avgPrice * (3 / 10)
    forecast :: arimaLoop coefficients order n (ext ++ [forecast])

/-- arimaForecast: throws when `prices.length < order + 1`, otherwise builds
correlation-damped AR coefficients and forecasts recursively.  The inner
`coefficients[j] || 0` coincides with getD j 0 because 0 is its own
default.  Indices `i - lag` and `i` stay in bounds, so getD defaults are
never taken there. -/
def arimaForecast (sq : ℚ → ℚ) (prices : List ℚ) (periodsAhead : ℕ)
    (order : ℕ) : Except String (List ℚ) :=
  if prices.length < order + 1 then
    .error "Not enough data for ARIMA forecast"
  else
    let coefficients := (List.range order).filterMap (fun lag0 =>
      let lag := lag0 + 1
      let idxs := (List.range (prices.length - order)).map (fun k => k + order)
      let x := idxs.map (fun i => prices.getD (i - lag) 0)
      let y := idxs.map (fun i => prices.getD i 0)
      if 0 < x.length then some (calculateCorrelation sq x y * (3 / 10)) else none)
    .ok (arimaLoop coefficients order periodsAhead prices)

theorem length_arimaLoop (coefficients : List ℚ) (order : ℕ) :
    ∀ (n : ℕ) (ext : List ℚ), (arimaLoop coefficients order n ext).length = n := by
  intro n
  induction n with
  | zero => intro ext; rfl
  | succ m ih => intro ext; simp [arimaLoop, ih]

/-- Claim C3: validateDataForPrediction never throws (it is a total pure
function) and realises exactly the stated boundary results: length 0 is
invalid with the no-data message, length 5 invalid with the
insufficient-data message, lengths 6 and 11 valid with the limited-data
warning message and recommendations, length 12 valid with the
sufficient-data message and no recommendations. -/
theorem validateDataForPrediction_boundaries (data : List CropPrice) :
    (data.length = 0 →
      validateDataForPrediction data =
        { isValid := false
          message := "No historical data available"
          recommendations := some ["Select a crop with available data"] }) ∧
    (data.length = 5 →
      validateDataForPrediction data =
        { isValid := false
          message := "Insufficient data for reliable predictions"
          recommendations := some
            ["At least 6 months of historical data required",
             "Try selecting a longer time range"] }) ∧
    (data.length = 6 ∨ data.length = 11 →
      validateDataForPrediction data =
        { isValid := true
          message := "Limited data available - predictions may be less accurate"
          recommendations := some
            ["Consider selecting a longer time range for better accuracy",
             "Predictions will use simplified models"] }) ∧
    (data.length = 12 →
      validateDataForPrediction data =
        { isValid := true
          message := "Sufficient data available for accurate predictions"
          recommendations := none }) := by
  refine ⟨?_, ?_, ?_, ?_⟩
  · intro h; simp [validateDataForPrediction, h]
  · intro h; simp [validateDataForPrediction, h]
  · intro h; rcases h with h | h <;> simp [validateDataForPrediction, h]
  · intro h; simp [validateDataForPrediction, h]

/-- Sample historical point used by concrete witnesses. -/
def samplePoint : CropPrice :=
  { id := "corn-2022-1", crop := "corn", year := 2022, month := 1,
    price := 160, unit := "USD/metric ton", source := "World Bank",
    region := some "Global", quality := none, isPrediction := none,
    confidenceInterval := none }

/-- Witness for C3 at concrete series of lengths 0, 5, 6, 11 and 12. -/
theorem validateDataForPrediction_boundaries_witness :
    validateDataForPrediction [] =
      { isValid := false
        message := "No historical data available"
        recommendations := some ["Select a crop with available data"] } ∧
    validateDataForPrediction (List.replicate 5 samplePoint) =
      { isValid := false
        message := "Insufficient data for reliable predictions"
        recommendations := some
          ["At least 6 months of historical data required",
           "Try selecting a longer time range"] } ∧
    validateDataForPrediction (List.replicate 6 samplePoint) =
      { isValid := true
        message := "Limited data available - predictions may be less accurate"
        recommendations := some
          ["Consider selecting a longer time range for better accuracy",
           "Predictions will use simplified models"] } ∧
    validateDataForPrediction (List.replicate 11 samplePoint) =
      { isValid := true
        message := "Limited data available - predictions may be less accurate"
        recommendations := some
          ["Consider selecting a longer time range for better accuracy",
           "Predictions will use simplified models"] } ∧
    validateDataForPrediction (List.replicate 12 samplePoint) =
      { isValid := true
        message := "Sufficient data available for accurate predictions"
        recommendations := none } :=
  ⟨(validateDataForPrediction_boundaries []).1 (by decide),
   (validateDataForPrediction_boundaries (List.replicate 5 samplePoint)).2.1 (by decide),
   (validateDataForPrediction_boundaries (List.replicate 6 samplePoint)).2.2.1 (Or.inl (by decide)),
   (validateDataForPrediction_boundaries (List.replicate 11 samplePoint)).2.2.1 (Or.inr (by decide)),
   (validateDataForPrediction_boundaries (List.replicate 12 samplePoint)).2.2.2 (by decide)⟩

/-- Claim C4: for any price series of length at most the order, the
autoregressive forecaster fails with the insufficient-data error; for any
longer series and any horizon it returns exactly h numeric forecasts.  The
Math.sqrt inside the correlation is abstracted by sq, over which the
statement quantifies. -/
theorem arimaForecast_length (sq : ℚ → ℚ) (prices : List ℚ) (h order : ℕ) :
    (prices.length ≤ order →
      arimaForecast sq prices h order = .error "Not enough data for ARIMA forecast") ∧
    (order < prices.length →
      ∃ l : List ℚ, arimaForecast sq prices h order = .ok l ∧ l.length = h) := by
  constructor
  · intro hle
    unfold arimaForecast
    rw [if_pos (by omega)]
  · intro hlt
    unfold arimaForecast
    rw [if_neg (by omega)]
    exact ⟨_, rfl, length_arimaLoop _ _ _ _⟩

/-- Witness for C4: a three-element series at order 3 fails, a four-element
series at order 3 returns two forecasts for horizon 2. -/
theorem arimaForecast_length_witness :
    arimaForecast (fun _ => 0) [10, 11, 12] 2 3 =
      .error "Not enough data for ARIMA forecast" ∧
    ∃ l : List ℚ, arimaForecast (fun _ => 0) [10, 11, 12, 13] 2 3 = .ok l ∧
      l.length = 2 :=
  ⟨(arimaForecast_length (fun _ => 0) [10, 11, 12] 2 3).1 (by decide),
   (arimaForecast_length (fun _ => 0) [10, 11, 12, 13] 2 3).2 (by decide)⟩

/-- Prices of the entries observed in calendar month m (grouping step of
the seasonal forecaster). -/
def monthPrices (data : List CropPrice) (m : ℤ) : List ℚ :=
  (data.filter (fun p => p.month = m)).map (fun p => p.price)

/-- Mean of all prices of the series. -/
def overallAverage (data : List CropPrice) : ℚ :=
  (data.map (fun p => p.price)).sum / (data.length : ℚ)

/-- Mean price of calendar month m. -/
def monthMean (data : List CropPrice) (m : ℤ) : ℚ :=
  (monthPrices data m).sum / ((monthPrices data m).length : ℚ)

/-- Seasonal factor of month m: the month mean over the overall mean when
the month has observations, otherwise the neutral factor 1. -/
def seasonalFactor (data : List CropPrice) (m : ℤ) : ℚ :=
  if monthPrices data m ≠ [] then monthMean data m / overallAverage data else 1

/-- The i-th (0-based) prediction pushed by the seasonalForecast loop; the
loop counter of the source is i + 1.  Math.random of the step is rand i. -/
def seasonalBuild (data : List CropPrice) (rand : ℕ → ℚ) (i : ℕ) : CropPrice :=
  let recentData := data.drop (data.length - 24)
  let lr := linearRegression
    ((List.range recentData.length).map (fun (k : ℕ) => (k : ℚ)))
    (recentData.map (fun p => p.price))
  let idx := lastIdx data + (i + 1)
  let year := idxToYear idx
  let month := idxToMonth idx
  let trendPrice := lr.slope * ((recentData.length : ℚ) + (i + 1)) + lr.intercept
  let factor := jsOrQ (some (seasonalFactor data month)) 1
  let predictedPrice := trendPrice * factor
  let variation := (rand i - 0.5) * 0.1
  let finalPrice := predictedPrice * (1 + variation)
  { id := "predicted-" ++ headCropText data ++ "-" ++ toString year ++ "-"
            ++ toString month
    crop := headCrop data
    year := year
    month := month
    price := round2 finalPrice
    unit := headUnit data
    source := "ML Prediction"
    region := some (headRegion data)
    quality := some "Forecasted"
    isPrediction := none
    confidenceInterval := none }

/-- seasonalForecast: pushes exactly monthsAhead predictions. -/
def seasonalForecast (data : List CropPrice) (monthsAhead : ℕ)
    (rand : ℕ → ℚ) : List CropPrice :=
  (List.range monthsAhead).map (seasonalBuild data rand)

/-- Average of the trailing window of at most 12 entries,
`historicalData.slice(-12)`. -/
def trailingAvg (data : List CropPrice) : ℚ :=
  let recentData := data.drop (data.length - 12)
  (recentData.map (fun p => p.price)).sum / (recentData.length : ℚ)

/-- The i-th (0-based) prediction of the fallback simple trend model: the
trailing average compounded at the monthly growth rate 0.02 / 12. -/
def simpleTrendBuild (data : List CropPrice) (i : ℕ) : CropPrice :=
  let idx := lastIdx data + (i + 1)
  let year := idxToYear idx
  let month := idxToMonth idx
  { id := "simple-prediction-" ++ headCropText data ++ "-" ++ toString year
            ++ "-" ++ toString month
    crop := headCrop data
    year := year
    month := month
    price := round2 (trailingAvg data * (1 + 0.02 / 12) ^ (i + 1))
    unit := headUnit data
    source := "Simple Trend Model"
    region := some (headRegion data)
    quality := some "Basic Prediction"
    isPrediction := some true
    confidenceInterval := none }

/-- generateSimpleTrendPredictions: empty input returns [] immediately,
otherwise exactly monthsAhead compounded predictions. -/
def generateSimpleTrendPredictions (data : List CropPrice)
    (monthsAhead : ℕ) : List CropPrice :=
  if data.length = 0 then []
  else (List.range monthsAhead).map (simpleTrendBuild data)

/-- The i-th (0-based) prediction of generateLinearPredictions; the loop
counter of the source is i + 1 and the regression runs over the whole
series. -/
def linearBuild (data : List CropPrice) (i : ℕ) : CropPrice :=
  let lr := linearRegression
    ((List.range data.length).map (fun (k : ℕ) => (k : ℚ)))
    (data.map (fun p => p.price))
  let idx := lastIdx data + (i + 1)
  let year := idxToYear idx
  let month := idxToMonth idx
  let predictedPrice := lr.slope * ((data.length : ℚ) + (i + 1)) + lr.intercept
  { id := "linear-prediction-" ++ headCropText data ++ "-" ++ toString year
            ++ "-" ++ toString month
    crop := headCrop data
    year := year
    month := month
    price := max 0 (round2 predictedPrice)
    unit := headUnit data
    source := "Linear Regression Model"
    region := some (headRegion data)
    quality := some "ML Predicted"
    isPrediction := some true
    confidenceInterval := none }

/-- generateLinearPredictions of PredictionService. -/
def generateLinearPredictions (data : List CropPrice)
    (monthsAhead : ℕ) : List CropPrice :=
  (List.range monthsAhead).map (linearBuild data)

/-- Linear extrapolation term of the ensemble at (0-based) step i:
`slope * (prices.length + i) + intercept`. -/
def ensembleLinearPrice (data : List CropPrice) (i : ℕ) : ℚ :=
  let prices := data.map (fun p => p.price)
  let lr := linearRegression
    ((List.range prices.length).map (fun (k : ℕ) => (k : ℚ))) prices
  lr.slope * ((prices.length : ℚ) + i) + lr.intercept

/-- The arimaForecasts array of the ensemble: the autoregressive forecasts
when the forecaster succeeds, otherwise `new Array(h).fill(prices[n-1])`,
an array of h copies of the last historical price (undefined, modelled as
none, when the series is empty). -/
def ensembleArimaList (sq : ℚ → ℚ) (prices : List ℚ) (h : ℕ) :
    List (Option ℚ) :=
  match arimaForecast sq prices h 3 with
  | .ok l => l.map some
  | .error _ => List.replicate h prices.getLast?

/-- The autoregressive term consumed by the ensemble combination at step i:
`arimaForecasts[i] || linearPrice`. -/
def ensembleArimaTerm (sq : ℚ → ℚ) (data : List CropPrice) (h i : ℕ) : ℚ :=
  jsOrQ (((ensembleArimaList sq (data.map (fun p => p.price)) h).get? i).join)
    (ensembleLinearPrice data i)

/-- The weighted ensemble price at (0-based) step i. -/
def ensembleCombinedPrice (sq : ℚ → ℚ) (data : List CropPrice) (h : ℕ)
    (rand : ℕ → ℚ) (i : ℕ) : ℚ :=
  let seasonalPredictions := seasonalForecast data h rand
  let prices := data.map (fun p => p.price)
  let lr := linearRegression
    ((List.range prices.length).map (fun (k : ℕ) => (k : ℚ))) prices
  let smoothedPrices := exponentialSmoothing prices 0.3
  let lastSmoothed := (smoothedPrices.getLast?).getD 0
  let seasonalPrice := jsOrQ ((seasonalPredictions.get? i).map (fun p => p.price)) 0
  let linearPrice := ensembleLinearPrice data i
  let smoothingPrice := lastSmoothed * (1 + (lr.slope / lr.intercept) * 0.01)
  let arimaPrice := ensembleArimaTerm sq data h i
  seasonalPrice * 0.4 + linearPrice * 0.25 + smoothingPrice * 0.2
    + arimaPrice * 0.15

/-- ensembleForecast: combines the seasonal entry of each step with the
weighted price.  The outer try/catch of the source (falling back to
seasonalForecast) is unreachable in the model: the autoregressive failure
is absorbed by the inner catch and no other modelled step can throw, since
JavaScript numeric edge cases produce NaN/Infinity rather than
exceptions. -/
def ensembleForecast (sq : ℚ → ℚ) (data : List CropPrice) (monthsAhead : ℕ)
    (rand : ℕ → ℚ) : List CropPrice :=
  let seasonalPredictions := seasonalForecast data monthsAhead rand
  (List.range monthsAhead).filterMap (fun i =>
    (seasonalPredictions.get? i).map (fun prediction =>
      { prediction with
          price := round2 (ensembleCombinedPrice sq data monthsAhead rand i)
          source := "Ensemble ML Prediction"
          quality := some "AI Forecasted" }))

/-- Period-over-period relative returns of the historical series. -/
def returnsOf (hist : List ℚ) : List ℚ :=
  List.zipWith (fun prev cur => (cur - prev) / prev) hist hist.tail

/-- Root-mean-square volatility with Math.sqrt abstracted by sq. -/
def volatilityQ (sq : ℚ → ℚ) (hist : List ℚ) : ℚ :=
  sq (((returnsOf hist).map (fun r => r * r)).sum / ((returnsOf hist).length : ℚ))

/-- z-score of the confidence level: the recognised levels 0.95 and 0.99,
any other level mapping to 1.645. -/
def zScore (confidenceLevel : ℚ) : ℚ :=
  if confidenceLevel = 0.95 then 1.96
  else if confidenceLevel = 0.99 then 2.58 else 1.645

/-- calculateConfidenceIntervals with Math.sqrt abstracted by sq (the
faithful real-valued version used by claim C5 appears further below). -/
def calculateConfidenceIntervalsQ (sq : ℚ → ℚ) (hist preds : List ℚ)
    (confidenceLevel : ℚ) : List ℚ × List ℚ :=
  let volatility := volatilityQ sq hist
  let z := zScore confidenceLevel
  (mapWithIndex (fun i pred => pred - z * volatility * pred * sq ((i : ℚ) + 1)) 0 preds,
   mapWithIndex (fun i pred => pred + z * volatility * pred * sq ((i : ℚ) + 1)) 0 preds)

/-- Entry of the static model registry (lastUpdated omitted, see above). -/
structure PredictionModel where
  name : String
  accuracy : ℚ
  description : String
deriving DecidableEq, Repr

/-- models[0] of PredictionService. -/
def ensembleModel : PredictionModel :=
  { name := "Ensemble ML Model", accuracy := 0.85,
    description := "Combines seasonal, linear regression, exponential smoothing, and ARIMA models" }

/-- models[1] of PredictionService. -/
def seasonalModel : PredictionModel :=
  { name := "Seasonal Decomposition", accuracy := 0.78,
    description := "Uses historical seasonal patterns and trend analysis" }

/-- models[2] of PredictionService. -/
def linearModel : PredictionModel :=
  { name := "Linear Regression", accuracy := 0.72,
    description := "Simple linear trend extrapolation" }

/-- Model selected by the switch of generatePredictions (the default arm is
unreachable: the TypeScript union type allows only the three labels). -/
def modelFor : ModelType → PredictionModel
  | .ensemble => ensembleModel
  | .seasonal => seasonalModel
  | .linear => linearModel

/-- methodsUsed list selected by the switch of generatePredictions. -/
def methodsFor : ModelType → List String
  | .ensemble => ["Seasonal Analysis", "Linear Regression", "Exponential Smoothing", "ARIMA"]
  | .seasonal => ["Seasonal Decomposition", "Trend Analysis"]
  | .linear => ["Linear Regression"]

/-- Raw predictions selected by the switch of generatePredictions. -/
def mainPredictions (sq : ℚ → ℚ) (rand : ℕ → ℚ) (data : List CropPrice)
    (monthsAhead : ℕ) : ModelType → List CropPrice
  | .ensemble => ensembleForecast sq data monthsAhead rand
  | .seasonal => seasonalForecast data monthsAhead rand
  | .linear => generateLinearPredictions data monthsAhead

/-- Successful branch of generatePredictions: attach rounded confidence
intervals (`lower[index]`, `upper[index]` are always in bounds, so the getD
defaults are never taken) and assemble the result. -/
def mainResult (sq : ℚ → ℚ) (rand : ℕ → ℚ) (data : List CropPrice)
    (monthsAhead : ℕ) (modelType : ModelType) : ForecastResult :=
  let predictions := mainPredictions sq rand data monthsAhead modelType
  let model := modelFor modelType
  let historicalPrices := data.map (fun p => p.price)
  let predictionPrices := predictions.map (fun p => p.price)
  let ci := calculateConfidenceIntervalsQ sq historicalPrices predictionPrices 0.95
  { predictions := mapWithIndex (fun index pred =>
      { pred with
          isPrediction := some true
          confidenceInterval := some (round2 (ci.1.getD index 0), round2 (ci.2.getD index 0)) })
      0 predictions
    confidence := model.accuracy
    model := model.name
    accuracy := model.accuracy
    metadata := { methodsUsed := methodsFor modelType,
                  dataPoints := data.length,
                  forecastHorizon := monthsAhead } }

/-- The deterministic fallback result of the catch branch of
generatePredictions. -/
def fallbackResult (data : List CropPrice) (monthsAhead : ℕ) : ForecastResult :=
  { predictions := generateSimpleTrendPredictions data monthsAhead
    confidence := 0.6
    model := "Simple Trend Model (Fallback)"
    accuracy := 0.6
    metadata := { methodsUsed := ["Simple Trend"],
                  dataPoints := data.length,
                  forecastHorizon := monthsAhead } }

/-- Try-block of generatePredictions as an Except computation.  The only
reachable throw site is the explicit length precondition: every later step
is a total computation in which JavaScript numeric edge cases yield
NaN/Infinity values, never exceptions, and the autoregressive failure is
caught inside ensembleForecast. -/
def generatePredictionsCore (sq : ℚ → ℚ) (rand : ℕ → ℚ)
    (data : List CropPrice) (monthsAhead : ℕ) (modelType : ModelType) :
    Except String ForecastResult :=
  if data.length < 12 then
    .error "Insufficient historical data for reliable predictions"
  else .ok (mainResult sq rand data monthsAhead modelType)

/-- generatePredictions: the try/catch makes the service total — an error
from the core is replaced by the fallback result. -/
def generatePredictions (sq : ℚ → ℚ) (rand : ℕ → ℚ)
    (data : List CropPrice) (monthsAhead : ℕ) (modelType : ModelType) :
    ForecastResult :=
  match generatePredictionsCore sq rand data monthsAhead modelType with
  | .ok r => r
  | .error _ => fallbackResult data monthsAhead

deriving instance DecidableEq for Except

/-- Claim C1: when the try-block of generatePredictions fails (its only
reachable throw site being the length ≥ 12 precondition), the service does
not propagate the error but returns exactly the fallback result, whose
predictions compound the trailing-window average (the last 12 months, or
the whole series when shorter) at the monthly rate 0.02 / 12, with
confidence 0.60 and the fallback model label.  Totality of the service is
definitional: generatePredictions always yields a ForecastResult. -/
theorem generatePredictions_fallback (sq : ℚ → ℚ) (rand : ℕ → ℚ)
    (data : List CropPrice) (monthsAhead : ℕ) (modelType : ModelType)
    (e : String)
    (hfail : generatePredictionsCore sq rand data monthsAhead modelType = .error e) :
    generatePredictions sq rand data monthsAhead modelType =
      fallbackResult data monthsAhead ∧
    (fallbackResult data monthsAhead).model = "Simple Trend Model (Fallback)" ∧
    (fallbackResult data monthsAhead).confidence = 0.6 ∧
    (fallbackResult data monthsAhead).accuracy = 0.6 ∧
    (fallbackResult data monthsAhead).metadata =
      { methodsUsed := ["Simple Trend"], dataPoints := data.length,
        forecastHorizon := monthsAhead } ∧
    (data ≠ [] →
      (fallbackResult data monthsAhead).predictions.map (fun p => p.price) =
        (List.range monthsAhead).map
          (fun i => round2 (trailingAvg data * (1 + 0.02 / 12) ^ (i + 1)))) := by
  refine ⟨?_, rfl, rfl, rfl, rfl, ?_⟩
  · unfold generatePredictions
    rw [hfail]
  · intro hne
    show (generateSimpleTrendPredictions data monthsAhead).map (fun p => p.price) = _
    unfold generateSimpleTrendPredictions
    rw [if_neg (by simpa [List.length_eq_zero] using hne)]
    rw [List.map_map]
    rfl

/-- Witness for C1: a single-point series fails the precondition and the
service returns the fallback result. -/
theorem generatePredictions_fallback_witness :
    generatePredictionsCore (fun _ => 0) (fun _ => 0) [samplePoint] 2 .ensemble =
      .error "Insufficient historical data for reliable predictions" ∧
    generatePredictions (fun _ => 0) (fun _ => 0) [samplePoint] 2 .ensemble =
      fallbackResult [samplePoint] 2 ∧
    ([samplePoint] : List CropPrice) ≠ [] ∧
    (fallbackResult [samplePoint] 2).predictions.map (fun p => p.price) =
      (List.range 2).map
        (fun i => round2 (trailingAvg [samplePoint] * (1 + 0.02 / 12) ^ (i + 1))) := by
  refine ⟨by decide, ?_⟩
  have h := generatePredictions_fallback (fun _ => 0) (fun _ => 0) [samplePoint] 2
    .ensemble "Insufficient historical data for reliable predictions" (by decide)
  exact ⟨h.1, by decide, h.2.2.2.2.2 (by decide)⟩

/-- Claim C10: on an empty historical series the fallback path still runs,
but its predictions list is empty — length 0 rather than the requested
horizon — while the metadata reports the requested horizon and zero data
points. -/
theorem generatePredictions_empty (sq : ℚ → ℚ) (rand : ℕ → ℚ)
    (monthsAhead : ℕ) (modelType : ModelType) (hpos : 0 < monthsAhead) :
    (generatePredictions sq rand [] monthsAhead modelType).predictions = [] ∧
    (generatePredictions sq rand [] monthsAhead modelType).predictions.length ≠
      monthsAhead ∧
    (generatePredictions sq rand [] monthsAhead modelType).model =
      "Simple Trend Model (Fallback)" ∧
    (generatePredictions sq rand [] monthsAhead modelType).metadata.forecastHorizon =
      monthsAhead ∧
    (generatePredictions sq rand [] monthsAhead modelType).metadata.dataPoints = 0 := by
  have hres : generatePredictions sq rand [] monthsAhead modelType =
      fallbackResult [] monthsAhead := by
    unfold generatePredictions generatePredictionsCore
    rw [if_pos (by simp)]
  rw [hres]
  have hpred : (fallbackResult [] monthsAhead).predictions = [] := rfl
  exact ⟨rfl, by rw [hpred]; simpa using hpos.ne, rfl, rfl, rfl⟩

/-- Witness for C10 at horizon 3. -/
theorem generatePredictions_empty_witness :
    (generatePredictions (fun _ => 0) (fun _ => 0) [] 3 .ensemble).predictions = [] ∧
    (generatePredictions (fun _ => 0) (fun _ => 0) [] 3 .ensemble).predictions.length ≠ 3 ∧
    (generatePredictions (fun _ => 0) (fun _ => 0) [] 3 .ensemble).model =
      "Simple Trend Model (Fallback)" ∧
    (generatePredictions (fun _ => 0) (fun _ => 0) [] 3 .ensemble).metadata.forecastHorizon = 3 ∧
    (generatePredictions (fun _ => 0) (fun _ => 0) [] 3 .ensemble).metadata.dataPoints = 0 :=
  generatePredictions_empty (fun _ => 0) (fun _ => 0) 3 .ensemble (by decide)

theorem lastIdx_eq_latestIdx (data : List CropPrice)
    (hyear : ∀ p ∈ data, 1900 ≤ p.year) : lastIdx data = latestIdx data := by
  have hmap : data.map (fun p => monthIdx p.year p.month) =
      data.map (fun p => plainMonthIdx p.year p.month) := by
    apply List.map_congr_left
    intro p hp
    have h1900 := hyear p hp
    unfold monthIdx plainMonthIdx jsYear
    rw [if_neg (by omega)]
  unfold lastIdx latestIdx
  rw [hmap]

theorem filterMap_some_eq_map (f : α → Option β) (g : α → β) :
    ∀ l : List α, (∀ a ∈ l, f a = some (g a)) → l.filterMap f = l.map g := by
  intro l
  induction l with
  | nil => intro _; rfl
  | cons a as ih =>
    intro hl
    rw [List.filterMap_cons, hl a (by simp), List.map_cons,
      ih (fun b hb => hl b (by simp [hb]))]

theorem ensembleForecast_eq_map (sq : ℚ → ℚ) (data : List CropPrice)
    (monthsAhead : ℕ) (rand : ℕ → ℚ) :
    ensembleForecast sq data monthsAhead rand =
      (List.range monthsAhead).map (fun i =>
        { seasonalBuild data rand i with
            price := round2 (ensembleCombinedPrice sq data monthsAhead rand i)
            source := "Ensemble ML Prediction"
            quality := some "AI Forecasted" }) := by
  unfold ensembleForecast
  apply filterMap_some_eq_map
  intro i hi
  have hget : (seasonalForecast data monthsAhead rand).get? i =
      some (seasonalBuild data rand i) := by
    unfold seasonalForecast
    rw [List.get?_map, List.get?_range (by simpa using hi)]
    rfl
  rw [hget]
  rfl

theorem seasonal_ym_map (data : List CropPrice) (monthsAhead : ℕ)
    (rand : ℕ → ℚ) (hLast : lastIdx data = latestIdx data) :
    (seasonalForecast data monthsAhead rand).map (fun p => (p.year, p.month)) =
      (List.range monthsAhead).map (fun (i : ℕ) =>
        (idxToYear (latestIdx data + ((i : ℤ) + 1)),
         idxToMonth (latestIdx data + ((i : ℤ) + 1)))) := by
  unfold seasonalForecast
  rw [List.map_map]
  apply List.map_congr_left
  intro i _
  show (idxToYear (lastIdx data + ((i : ℤ) + 1)),
    idxToMonth (lastIdx data + ((i : ℤ) + 1))) = _
  rw [hLast]

/-- Claim C2: with at least 12 historical points (and data-model-conformant
years, so that the two-digit-year adjustment of the JavaScript Date
constructor is inert) and any positive horizon, generatePredictions returns
exactly monthsAhead predictions whose (year, month) pairs continue month by
month from the latest historical epoch month, for every model type. -/
theorem generatePredictions_horizon (sq : ℚ → ℚ) (rand : ℕ → ℚ)
    (data : List CropPrice) (monthsAhead : ℕ) (modelType : ModelType)
    (hlen : 12 ≤ data.length) (hpos : 0 < monthsAhead)
    (hyear : ∀ p ∈ data, 1900 ≤ p.year) :
    (generatePredictions sq rand data monthsAhead modelType).predictions.length =
      monthsAhead ∧
    (generatePredictions sq rand data monthsAhead modelType).predictions.map
        (fun p => (p.year, p.month)) =
      (List.range monthsAhead).map (fun (i : ℕ) =>
        (idxToYear (latestIdx data + ((i : ℤ) + 1)),
         idxToMonth (latestIdx data + ((i : ℤ) + 1)))) := by
  have hLast := lastIdx_eq_latestIdx data hyear
  have hok : generatePredictions sq rand data monthsAhead modelType =
      mainResult sq rand data monthsAhead modelType := by
    unfold generatePredictions generatePredictionsCore
    rw [if_neg (by omega)]
  rw [hok]
  have hmain : (mainResult sq rand data monthsAhead modelType).predictions.map
        (fun p => (p.year, p.month)) =
      (mainPredictions sq rand data monthsAhead modelType).map
        (fun p => (p.year, p.month)) := by
    apply map_mapWithIndex
    intro i a
    rfl
  have hpath : (mainPredictions sq rand data monthsAhead modelType).map
        (fun p => (p.year, p.month)) =
      (List.range monthsAhead).map (fun (i : ℕ) =>
        (idxToYear (latestIdx data + ((i : ℤ) + 1)),
         idxToMonth (latestIdx data + ((i : ℤ) + 1)))) := by
    cases modelType with
    | ensemble =>
      show (ensembleForecast sq data monthsAhead rand).map _ = _
      rw [ensembleForecast_eq_map, List.map_map]
      have hsm := seasonal_ym_map data monthsAhead rand hLast
      unfold seasonalForecast at hsm
      rw [List.map_map] at hsm
      exact hsm
    | seasonal =>
      exact seasonal_ym_map data monthsAhead rand hLast
    | linear =>
      show (generateLinearPredictions data monthsAhead).map _ = _
      unfold generateLinearPredictions
      rw [List.map_map]
      apply List.map_congr_left
      intro i _
      show (idxToYear (lastIdx data + ((i : ℤ) + 1)),
        idxToMonth (lastIdx data + ((i : ℤ) + 1))) = _
      rw [hLast]
  constructor
  · have hlenmain : (mainResult sq rand data monthsAhead modelType).predictions.length =
        (mainPredictions sq rand data monthsAhead modelType).length :=
      length_mapWithIndex _ _ _
    rw [hlenmain]
    cases modelType with
    | ensemble =>
      show (ensembleForecast sq data monthsAhead rand).length = _
      rw [ensembleForecast_eq_map]
      simp
    | seasonal =>
      show (seasonalForecast data monthsAhead rand).length = _
      simp [seasonalForecast]
    | linear =>
      show (generateLinearPredictions data monthsAhead).length = _
      simp [generateLinearPredictions]
  · rw [hmain, hpath]

/-- Sample 12-month series (year 2022, months 1..12) for witnesses. -/
def sampleSeries : List CropPrice :=
  (List.range 12).map (fun k =>
    { samplePoint with month := (k : ℤ) + 1, price := 160 + k })

/-- Witness for C2 at the 12-month sample series, horizon 2, linear model. -/
theorem generatePredictions_horizon_witness :
    (generatePredictions (fun _ => 0) (fun _ => 0) sampleSeries 2 .linear).predictions.length = 2 ∧
    (generatePredictions (fun _ => 0) (fun _ => 0) sampleSeries 2 .linear).predictions.map
        (fun p => (p.year, p.month)) =
      (List.range 2).map (fun (i : ℕ) =>
        (idxToYear (latestIdx sampleSeries + ((i : ℤ) + 1)),
         idxToMonth (latestIdx sampleSeries + ((i : ℤ) + 1)))) :=
  generatePredictions_horizon (fun _ => 0) (fun _ => 0) sampleSeries 2 .linear
    (by decide) (by decide) (by decide)

/-- Counterexample to claim C7 as stated: the entries produced by the
seasonal forecaster carry source "ML Prediction", not "Seasonal". -/
theorem seasonalForecast_source_cex :
    (seasonalForecast [samplePoint] 1 (fun _ => 0)).map (fun p => p.source) =
      ["ML Prediction"] ∧
    "ML Prediction" ≠ "Seasonal" := by
  exact ⟨rfl, by decide⟩

/-- Claim C7 as amended: on a non-empty series with data-model-conformant
years, the seasonal forecaster produces exactly h entries chronologically
continuing month by month from the latest historical (year, month), each
tagged source = "ML Prediction" (not "Seasonal") and
quality = "Forecasted". -/
theorem seasonalForecast_shape (data : List CropPrice) (monthsAhead : ℕ)
    (rand : ℕ → ℚ) (hne : data ≠ []) (hyear : ∀ p ∈ data, 1900 ≤ p.year) :
    (seasonalForecast data monthsAhead rand).length = monthsAhead ∧
    (seasonalForecast data monthsAhead rand).map (fun p => (p.year, p.month)) =
      (List.range monthsAhead).map (fun (i : ℕ) =>
        (idxToYear (latestIdx data + ((i : ℤ) + 1)),
         idxToMonth (latestIdx data + ((i : ℤ) + 1)))) ∧
    (∀ p ∈ seasonalForecast data monthsAhead rand,
      p.source = "ML Prediction" ∧ p.quality = some "Forecasted") := by
  refine ⟨by simp [seasonalForecast], ?_, ?_⟩
  · exact seasonal_ym_map data monthsAhead rand (lastIdx_eq_latestIdx data hyear)
  · intro p hp
    unfold seasonalForecast at hp
    rw [List.mem_map] at hp
    obtain ⟨i, _, rfl⟩ := hp
    exact ⟨rfl, rfl⟩

/-- Witness for the amended C7 at the 12-month sample series, horizon 2. -/
theorem seasonalForecast_shape_witness :
    (seasonalForecast sampleSeries 2 (fun _ => 0)).length = 2 ∧
    (seasonalForecast sampleSeries 2 (fun _ => 0)).map (fun p => (p.year, p.month)) =
      (List.range 2).map (fun (i : ℕ) =>
        (idxToYear (latestIdx sampleSeries + ((i : ℤ) + 1)),
         idxToMonth (latestIdx sampleSeries + ((i : ℤ) + 1)))) ∧
    (∀ p ∈ seasonalForecast sampleSeries 2 (fun _ => 0),
      p.source = "ML Prediction" ∧ p.quality = some "Forecasted") :=
  seasonalForecast_shape sampleSeries 2 (fun _ => 0) (by decide) (by decide)

/-- Two-point series whose prices are 10 and 20, used to exhibit the
behaviour of the ensemble when the autoregressive forecaster fails. -/
def twoPoints : List CropPrice :=
  [{ samplePoint with price := 10 },
   { samplePoint with month := 2, price := 20 }]

/-- Counterexample to claim C6 as stated: on the two-point series the
autoregressive forecaster fails, and the value substituted for the
autoregressive term is 20 — the last historical price — while the linear
extrapolation value for that step is 30. -/
theorem ensembleArimaTerm_cex :
    arimaForecast (fun _ => 0) (twoPoints.map (fun p => p.price)) 1 3 =
      .error "Not enough data for ARIMA forecast" ∧
    ensembleArimaTerm (fun _ => 0) twoPoints 1 0 = 20 ∧
    ensembleLinearPrice twoPoints 0 = 30 ∧
    ensembleArimaTerm (fun _ => 0) twoPoints 1 0 ≠
      ensembleLinearPrice twoPoints 0 := by
  have hterm : ensembleArimaTerm (fun _ => 0) twoPoints 1 0 = 20 := by
    norm_num [ensembleArimaTerm, ensembleArimaList, arimaForecast, twoPoints,
      samplePoint, jsOrQ]
  have hlin : ensembleLinearPrice twoPoints 0 = 30 := by
    norm_num [ensembleLinearPrice, linearRegression, twoPoints, samplePoint,
      List.range_succ]
  refine ⟨by decide, hterm, hlin, ?_⟩
  rw [hterm, hlin]
  norm_num

/-- Claim C6 as amended: inside the ensemble, when the autoregressive
forecaster fails with the insufficient-data error, the value substituted
for the autoregressive term at each step is the last historical price
(the linear-extrapolation value is used only when that price is absent or
zero, through the JavaScript || fallback), and the ensemble call itself
does not fail — it still returns exactly h combined predictions. -/
theorem ensembleArimaTerm_fallback (sq : ℚ → ℚ) (rand : ℕ → ℚ)
    (data : List CropPrice) (monthsAhead i : ℕ) (e : String)
    (hi : i < monthsAhead)
    (hfail : arimaForecast sq (data.map (fun p => p.price)) monthsAhead 3 =
      .error e) :
    ensembleArimaTerm sq data monthsAhead i =
      jsOrQ (data.map (fun p => p.price)).getLast?
        (ensembleLinearPrice data i) ∧
    (∀ q : ℚ, (data.map (fun p => p.price)).getLast? = some q → q ≠ 0 →
      ensembleArimaTerm sq data monthsAhead i = q) ∧
    (ensembleForecast sq data monthsAhead rand).length = monthsAhead := by
  have hterm : ensembleArimaTerm sq data monthsAhead i =
      jsOrQ (data.map (fun p => p.price)).getLast?
        (ensembleLinearPrice data i) := by
    unfold ensembleArimaTerm ensembleArimaList
    rw [hfail]
    have hrep : (List.replicate monthsAhead
        (data.map (fun p => p.price)).getLast?).get? i =
        some (data.map (fun p => p.price)).getLast? := by
      rw [List.get?_eq_getElem?, List.getElem?_replicate, if_pos hi]
    rw [hrep]
    rfl
  refine ⟨hterm, ?_, ?_⟩
  · intro q hq hq0
    rw [hterm, hq]
    unfold jsOrQ
    simp [hq0]
  · rw [ensembleForecast_eq_map]
    simp

/-- Witness for the amended C6 on the two-point series: the substituted
term equals the last historical price 20. -/
theorem ensembleArimaTerm_fallback_witness :
    ensembleArimaTerm (fun _ => 0) twoPoints 1 0 =
      jsOrQ (twoPoints.map (fun p => p.price)).getLast?
        (ensembleLinearPrice twoPoints 0) ∧
    (∀ q : ℚ, (twoPoints.map (fun p => p.price)).getLast? = some q → q ≠ 0 →
      ensembleArimaTerm (fun _ => 0) twoPoints 1 0 = q) ∧
    (ensembleForecast (fun _ => 0) twoPoints 1 (fun _ => 0)).length = 1 :=
  ensembleArimaTerm_fallback (fun _ => 0) (fun _ => 0) twoPoints 1 0
    "Not enough data for ARIMA forecast" (by decide) (by decide)

/-
The rational embedding above renders JavaScript zero-division results by
the division-by-zero-is-zero convention of ℚ; that is adequate for the
forecasting pipeline, where no proved claim depends on the value of a
zero-denominator division.  Claim C8, however, is precisely about the
finiteness of the regression outputs, so the regression is embedded a
second time below with exact finiteness tracking: a JavaScript number is
`some q` when finite and `none` when non-finite (NaN or an infinity —
the model does not distinguish them; floating-point overflow to Infinity
is not modelled, rationals being unbounded).
-/

/-- Addition of JavaScript numbers: any non-finite operand makes the
result non-finite (including Infinity + (−Infinity) = NaN). -/
def jadd : Option ℚ → Option ℚ → Option ℚ
  | some a, some b => some (a + b)
  | _, _ => none

/-- Subtraction of JavaScript numbers: any non-finite operand makes the
result non-finite (including Infinity − Infinity = NaN). -/
def jsub : Option ℚ → Option ℚ → Option ℚ
  | some a, some b => some (a - b)
  | _, _ => none

/-- Multiplication of JavaScript numbers: any non-finite operand makes the
result non-finite (including Infinity · 0 = NaN). -/
def jmul : Option ℚ → Option ℚ → Option ℚ
  | some a, some b => some (a * b)
  | _, _ => none

/-- Division of JavaScript numbers: finite over finite-nonzero is finite;
a zero divisor (±Infinity or NaN in JavaScript) or a non-finite dividend
gives a non-finite result.  The one remaining JavaScript case — a finite
dividend over a non-finite divisor, where ±Infinity gives 0 but NaN gives
NaN — is also mapped to none; inside linearRegressionJs it is reachable
only in the R² of a call with empty x and non-empty y, and no theorem
below concerns that value. -/
def jdiv : Option ℚ → Option ℚ → Option ℚ
  | some a, some b => if b = 0 then none else some (a / b)
  | _, _ => none

/-- Square of a JavaScript number, Math.pow(v, 2). -/
def jsq (a : Option ℚ) : Option ℚ := jmul a a

/-- Reduce with jadd from initial accumulator 0, the sum of a list of
JavaScript numbers. -/
def jsumOf (l : List (Option ℚ)) : Option ℚ := l.foldl jadd (some 0)

/-- Result of linearRegression with finiteness tracked. -/
structure LinRegJs where
  slope : Option ℚ
  intercept : Option ℚ
  r2 : Option ℚ
deriving DecidableEq, Repr

/-- linearRegression embedded a second time, tracking finiteness exactly.
The input sums (reduces over the finite input rationals) always stay
finite, so they are collapsed to plain rational sums; a non-finite value
can first arise at one of the divisions and is then propagated through
every later operation, exactly as NaN propagates in JavaScript. -/
def linearRegressionJs (xValues yValues : List ℚ) : LinRegJs :=
  let n : ℚ := xValues.length
  let sumX := xValues.sum
  let sumY := yValues.sum
  let sumXY := ((xValues.zip yValues).map (fun p => p.1 * p.2)).sum
  let sumXX := (xValues.map (fun v => v * v)).sum
  let slope := jdiv (some (n * sumXY - sumX * sumY))
    (some (n * sumXX - sumX * sumX))
  let intercept := jdiv (jsub (some sumY) (jmul slope (some sumX))) (some n)
  let yMean := jdiv (some sumY) (some n)
  let totalSumSquares := jsumOf (yValues.map (fun v => jsq (jsub (some v) yMean)))
  let residualSumSquares := jsumOf ((xValues.zip yValues).map (fun p =>
    jsq (jsub (some p.2) (jadd (jmul slope (some p.1)) intercept))))
  { slope := slope
    intercept := intercept
    r2 := jsub (some 1) (jdiv residualSumSquares totalSumSquares) }

theorem foldl_jadd_some (g : α → ℚ) (l : List α) :
    ∀ a : ℚ, (l.map (fun v => some (g v))).foldl jadd (some a) =
      some (a + (l.map g).sum) := by
  induction l with
  | nil => intro a; simp
  | cons v t ih =>
    intro a
    simp only [List.map_cons, List.foldl_cons, jadd]
    rw [ih (a + g v), List.sum_cons]
    congr 1
    ring

theorem jsumOf_map_some (g : α → ℚ) (l : List α) :
    jsumOf (l.map (fun v => some (g v))) = some ((l.map g).sum) := by
  unfold jsumOf
  rw [foldl_jadd_some]
  rw [zero_add]

/-- Counterexample to claim C8 as stated, refuting both conjuncts: on
x = [1, 1] (zero x-variance) the spec-modelled TrendEstimator fails with
DegenerateInputError while the source function returns an ordinary record
whose slope and intercept are non-finite (the NaN values of JavaScript
zero-division) with no exception thrown; and on x = [0, 1], y = [5, 5]
(nonzero x-variance, constant y) the slope and intercept are finite but
R² = 1 − 0/0 is non-finite, refuting the finite-for-all-other-inputs
conjunct as well. -/
theorem linearRegression_total_cex :
    linearRegressionSpec [1, 1] [1, 2] = .error "DegenerateInputError" ∧
    (linearRegressionJs [1, 1] [1, 2]).slope = none ∧
    (linearRegressionJs [1, 1] [1, 2]).intercept = none ∧
    linRegDenom [0, 1] ≠ 0 ∧
    (linearRegressionJs [0, 1] [5, 5]).slope = some 0 ∧
    (linearRegressionJs [0, 1] [5, 5]).intercept = some 5 ∧
    (linearRegressionJs [0, 1] [5, 5]).r2 = none := by
  refine ⟨by norm_num [linearRegressionSpec, linRegDenom], ?_, ?_,
    by norm_num [linRegDenom], ?_, ?_, ?_⟩ <;>
    norm_num [linearRegressionJs, jadd, jsub, jmul, jdiv, jsq, jsumOf]

theorem linRegDenom_replicate (n : ℕ) (c : ℚ) :
    linRegDenom (List.replicate n c) = 0 := by
  unfold linRegDenom
  simp only [List.length_replicate, List.map_replicate, List.sum_replicate,
    nsmul_eq_mul]
  ring

/-- Claim C8 as amended: linearRegression never fails — it is a total
function that always returns a record.  Whenever the variance of the x
input is zero (the denominator n·Σx² − (Σx)² is zero), the returned slope
and intercept are the non-finite (NaN) values of JavaScript zero-division
rather than a thrown DegenerateInputError; for every other input the
slope and the intercept are finite, and R² is non-finite exactly when the
total sum of squares about the mean of y is zero. -/
theorem linearRegression_degenerate (x y : List ℚ) :
    (linRegDenom x = 0 →
      (linearRegressionJs x y).slope = none ∧
      (linearRegressionJs x y).intercept = none) ∧
    (linRegDenom x ≠ 0 →
      (∃ s, (linearRegressionJs x y).slope = some s) ∧
      (∃ b, (linearRegressionJs x y).intercept = some b) ∧
      ((y.map (fun v => (v - y.sum / (x.length : ℚ)) ^ 2)).sum = 0 →
        (linearRegressionJs x y).r2 = none) ∧
      ((y.map (fun v => (v - y.sum / (x.length : ℚ)) ^ 2)).sum ≠ 0 →
        ∃ r, (linearRegressionJs x y).r2 = some r)) := by
  have hslope : (linearRegressionJs x y).slope =
      jdiv (some ((x.length : ℚ) * ((x.zip y).map (fun p => p.1 * p.2)).sum -
          x.sum * y.sum))
        (some ((x.length : ℚ) * (x.map (fun v => v * v)).sum -
          x.sum * x.sum)) := rfl
  have hint : (linearRegressionJs x y).intercept =
      jdiv (jsub (some y.sum)
          (jmul (linearRegressionJs x y).slope (some x.sum)))
        (some (x.length : ℚ)) := rfl
  have hr2 : (linearRegressionJs x y).r2 =
      jsub (some 1)
        (jdiv
          (jsumOf ((x.zip y).map (fun p =>
            jsq (jsub (some p.2)
              (jadd (jmul (linearRegressionJs x y).slope (some p.1))
                (linearRegressionJs x y).intercept)))))
          (jsumOf (y.map (fun v =>
            jsq (jsub (some v)
              (jdiv (some y.sum) (some (x.length : ℚ)))))))) := rfl
  constructor
  · intro h
    have h' : (x.length : ℚ) * (x.map (fun v => v * v)).sum -
        x.sum * x.sum = 0 := h
    have hs : (linearRegressionJs x y).slope = none := by
      rw [hslope]
      simp only [jdiv]
      rw [if_pos h']
    refine ⟨hs, ?_⟩
    rw [hint, hs]
    simp [jmul, jsub, jdiv]
  · intro h
    have h' : (x.length : ℚ) * (x.map (fun v => v * v)).sum -
        x.sum * x.sum ≠ 0 := h
    have hxne : x ≠ [] := by
      rintro rfl
      exact h (by norm_num [linRegDenom])
    have hlen : x.length ≠ 0 := fun h0 => hxne (List.length_eq_zero.1 h0)
    have hn : (x.length : ℚ) ≠ 0 := Nat.cast_ne_zero.mpr hlen
    have hs : (linearRegressionJs x y).slope =
        some (((x.length : ℚ) * ((x.zip y).map (fun p => p.1 * p.2)).sum -
            x.sum * y.sum) /
          ((x.length : ℚ) * (x.map (fun v => v * v)).sum - x.sum * x.sum)) := by
      rw [hslope]
      simp only [jdiv]
      rw [if_neg h']
    have hb : (linearRegressionJs x y).intercept =
        some ((y.sum -
            ((x.length : ℚ) * ((x.zip y).map (fun p => p.1 * p.2)).sum -
              x.sum * y.sum) /
            ((x.length : ℚ) * (x.map (fun v => v * v)).sum - x.sum * x.sum) *
            x.sum) / (x.length : ℚ)) := by
      rw [hint, hs]
      simp only [jmul, jsub, jdiv]
      rw [if_neg hn]
    have hym : jdiv (some y.sum) (some (x.length : ℚ)) =
        some (y.sum / (x.length : ℚ)) := by
      simp only [jdiv]
      rw [if_neg hn]
    have htss : jsumOf (y.map (fun v =>
        jsq (jsub (some v) (jdiv (some y.sum) (some (x.length : ℚ)))))) =
        some ((y.map (fun v => (v - y.sum / (x.length : ℚ)) ^ 2)).sum) := by
      rw [hym]
      have hfun : (fun v : ℚ =>
          jsq (jsub (some v) (some (y.sum / (x.length : ℚ))))) =
          fun v : ℚ => some ((v - y.sum / (x.length : ℚ)) ^ 2) := by
        funext v
        simp only [jsq, jsub, jmul]
        congr 1
        ring
      rw [hfun, jsumOf_map_some]
    obtain ⟨sv, hsv⟩ : ∃ s, (linearRegressionJs x y).slope = some s := ⟨_, hs⟩
    obtain ⟨bv, hbv⟩ : ∃ b, (linearRegressionJs x y).intercept = some b := ⟨_, hb⟩
    have hrss : jsumOf ((x.zip y).map (fun p =>
        jsq (jsub (some p.2)
          (jadd (jmul (linearRegressionJs x y).slope (some p.1))
            (linearRegressionJs x y).intercept)))) =
        some (((x.zip y).map (fun p =>
          (p.2 - (sv * p.1 + bv)) ^ 2)).sum) := by
      have hfun : (fun p : ℚ × ℚ =>
          jsq (jsub (some p.2)
            (jadd (jmul (linearRegressionJs x y).slope (some p.1))
              (linearRegressionJs x y).intercept))) =
          fun p : ℚ × ℚ => some ((p.2 - (sv * p.1 + bv)) ^ 2) := by
        funext p
        rw [hsv, hbv]
        simp only [jsq, jsub, jmul, jadd]
        congr 1
        ring
      rw [hfun, jsumOf_map_some]
    refine ⟨⟨_, hs⟩, ⟨_, hb⟩, ?_, ?_⟩
    · intro hT
      rw [hr2, htss, hrss, hT]
      simp [jdiv, jsub]
    · intro hT
      rw [hr2, htss, hrss]
      simp only [jdiv]
      rw [if_neg hT]
      exact ⟨_, rfl⟩

/-- Witness for the amended C8: the degenerate conclusions at x = [1, 1]
(denominator 0) and the finite-slope/intercept and finite R² conclusions
at x = [0, 1], y = [5, 7] (denominator 1, total sum of squares 2). -/
theorem linearRegression_degenerate_witness :
    ((linearRegressionJs [1, 1] [1, 2]).slope = none ∧
      (linearRegressionJs [1, 1] [1, 2]).intercept = none) ∧
    ((∃ s, (linearRegressionJs [0, 1] [5, 7]).slope = some s) ∧
      (∃ b, (linearRegressionJs [0, 1] [5, 7]).intercept = some b) ∧
      ((([(5 : ℚ), 7].map (fun v =>
          (v - [(5 : ℚ), 7].sum / (([(0 : ℚ), 1] : List ℚ).length : ℚ)) ^ 2)).sum = 0) →
        (linearRegressionJs [0, 1] [5, 7]).r2 = none) ∧
      ((([(5 : ℚ), 7].map (fun v =>
          (v - [(5 : ℚ), 7].sum / (([(0 : ℚ), 1] : List ℚ).length : ℚ)) ^ 2)).sum ≠ 0) →
        ∃ r, (linearRegressionJs [0, 1] [5, 7]).r2 = some r)) :=
  ⟨(linearRegression_degenerate [1, 1] [1, 2]).1 (by norm_num [linRegDenom]),
   (linearRegression_degenerate [0, 1] [5, 7]).2 (by norm_num [linRegDenom])⟩

theorem monthPrices_cons (p : CropPrice) (t : List CropPrice) (m : ℤ) :
    monthPrices (p :: t) m =
      if p.month = m then p.price :: monthPrices t m else monthPrices t m := by
  unfold monthPrices
  by_cases h : p.month = m <;> simp [List.filter_cons, h]

theorem sum_monthPrices (data : List CropPrice)
    (hm : ∀ p ∈ data, p.month ∈ Finset.Icc (1 : ℤ) 12) :
    ∑ m ∈ Finset.Icc (1 : ℤ) 12, (monthPrices data m).sum =
      (data.map (fun p => p.price)).sum := by
  induction data with
  | nil => simp [monthPrices]
  | cons p t ih =>
    have hp : p.month ∈ Finset.Icc (1 : ℤ) 12 := hm p (by simp)
    have ht : ∀ q ∈ t, q.month ∈ Finset.Icc (1 : ℤ) 12 :=
      fun q hq => hm q (by simp [hq])
    have hsum : ∀ m : ℤ, (monthPrices (p :: t) m).sum =
        (if p.month = m then p.price else 0) + (monthPrices t m).sum := by
      intro m
      rw [monthPrices_cons]
      by_cases h : p.month = m <;> simp [h]
    calc ∑ m ∈ Finset.Icc (1 : ℤ) 12, (monthPrices (p :: t) m).sum
        = ∑ m ∈ Finset.Icc (1 : ℤ) 12,
            ((if p.month = m then p.price else 0) + (monthPrices t m).sum) :=
          Finset.sum_congr rfl (fun m _ => hsum m)
      _ = (∑ m ∈ Finset.Icc (1 : ℤ) 12, if p.month = m then p.price else 0)
            + ∑ m ∈ Finset.Icc (1 : ℤ) 12, (monthPrices t m).sum :=
          Finset.sum_add_distrib
      _ = p.price + (t.map (fun q => q.price)).sum := by
          rw [Finset.sum_ite_eq, if_pos hp, ih ht]
      _ = ((p :: t).map (fun q => q.price)).sum := by simp

theorem length_monthPrices (data : List CropPrice)
    (hm : ∀ p ∈ data, p.month ∈ Finset.Icc (1 : ℤ) 12) :
    ∑ m ∈ Finset.Icc (1 : ℤ) 12, (monthPrices data m).length = data.length := by
  induction data with
  | nil => simp [monthPrices]
  | cons p t ih =>
    have hp : p.month ∈ Finset.Icc (1 : ℤ) 12 := hm p (by simp)
    have ht : ∀ q ∈ t, q.month ∈ Finset.Icc (1 : ℤ) 12 :=
      fun q hq => hm q (by simp [hq])
    have hlen : ∀ m : ℤ, (monthPrices (p :: t) m).length =
        (if p.month = m then 1 else 0) + (monthPrices t m).length := by
      intro m
      rw [monthPrices_cons]
      by_cases h : p.month = m <;> simp [h] <;> omega
    calc ∑ m ∈ Finset.Icc (1 : ℤ) 12, (monthPrices (p :: t) m).length
        = ∑ m ∈ Finset.Icc (1 : ℤ) 12,
            ((if p.month = m then 1 else 0) + (monthPrices t m).length) :=
          Finset.sum_congr rfl (fun m _ => hlen m)
      _ = (∑ m ∈ Finset.Icc (1 : ℤ) 12, if p.month = m then 1 else 0)
            + ∑ m ∈ Finset.Icc (1 : ℤ) 12, (monthPrices t m).length :=
          Finset.sum_add_distrib
      _ = 1 + t.length := by rw [Finset.sum_ite_eq, if_pos hp, ih ht]
      _ = (p :: t).length := by simp [Nat.add_comm]

theorem overallAverage_const (data : List CropPrice) (c : ℚ)
    (hne : data ≠ [])
    (hm : ∀ p ∈ data, p.month ∈ Finset.Icc (1 : ℤ) 12)
    (hmean : ∀ m ∈ Finset.Icc (1 : ℤ) 12,
      monthPrices data m ≠ [] → monthMean data m = c) :
    overallAverage data = c := by
  have hsum : ∀ m ∈ Finset.Icc (1 : ℤ) 12,
      (monthPrices data m).sum = c * ((monthPrices data m).length : ℚ) := by
    intro m hmIcc
    by_cases hnil : monthPrices data m = []
    · simp [hnil]
    · have hmm := hmean m hmIcc hnil
      unfold monthMean at hmm
      have hlen : ((monthPrices data m).length : ℚ) ≠ 0 := by
        have := List.length_pos.2 hnil
        exact_mod_cast Nat.pos_iff_ne_zero.1 this
      field_simp at hmm
      linarith [hmm]
  have htot : (data.map (fun p => p.price)).sum = c * (data.length : ℚ) := by
    rw [← sum_monthPrices data hm, Finset.sum_congr rfl hsum, ← Finset.mul_sum]
    congr 1
    rw [← length_monthPrices data hm]
    push_cast
    rfl
  have hlen0 : (data.length : ℚ) ≠ 0 := by
    have := List.length_pos.2 hne
    exact_mod_cast Nat.pos_iff_ne_zero.1 this
  unfold overallAverage
  rw [htot, mul_div_assoc, div_self hlen0, mul_one]

/-- Counterexample to claim C9 as stated: the one-point series at price 0
has an identical (zero) mean in every observed calendar month, yet the
seasonal factor of its month is 0/0 — NaN in JavaScript, 0 in the rational
model — and in particular not 1. -/
theorem seasonalFactor_const_cex :
    (([{ samplePoint with price := 0 }] : List CropPrice) ≠ []) ∧
    (∀ m ∈ Finset.Icc (1 : ℤ) 12,
      monthPrices [{ samplePoint with price := 0 }] m ≠ [] →
      monthMean [{ samplePoint with price := 0 }] m = 0) ∧
    seasonalFactor [{ samplePoint with price := 0 }] 1 ≠ 1 := by
  refine ⟨by decide, ?_, ?_⟩
  · intro m _ hnonempty
    have hm1 : m = 1 := by
      by_contra hne1
      apply hnonempty
      simp [monthPrices, List.filter_cons, samplePoint]
      intro h
      exact absurd h.symm hne1
    subst hm1
    norm_num [monthMean, monthPrices, List.filter_cons, samplePoint]
  · norm_num [seasonalFactor, monthMean, monthPrices, overallAverage,
      List.filter_cons, samplePoint]

/-- Claim C9 as amended: on a non-empty series with months in 1..12 in
which the mean price of every observed calendar month equals the same
nonzero value, every seasonal factor computed by the seasonal forecaster
equals 1 (the original claim fails when the common mean is zero, the
factor then being 0/0). -/
theorem seasonalFactor_const (data : List CropPrice) (c : ℚ)
    (hne : data ≠ []) (hc : c ≠ 0)
    (hm : ∀ p ∈ data, p.month ∈ Finset.Icc (1 : ℤ) 12)
    (hmean : ∀ m ∈ Finset.Icc (1 : ℤ) 12,
      monthPrices data m ≠ [] → monthMean data m = c) :
    ∀ m ∈ Finset.Icc (1 : ℤ) 12, seasonalFactor data m = 1 := by
  intro m hmIcc
  unfold seasonalFactor
  by_cases hnil : monthPrices data m = []
  · simp [hnil]
  · rw [if_pos hnil, hmean m hmIcc hnil,
      overallAverage_const data c hne hm hmean]
    exact div_self hc

/-- Witness for the amended C9: two points in distinct months with the
common mean 160 give seasonal factor 1, instantiated at months 1 and 12. -/
theorem seasonalFactor_const_witness :
    seasonalFactor [samplePoint, { samplePoint with month := 2 }] 1 = 1 ∧
    seasonalFactor [samplePoint, { samplePoint with month := 2 }] 12 = 1 :=
  have hall := seasonalFactor_const [samplePoint, { samplePoint with month := 2 }] 160
    (by decide) (by norm_num) (by decide)
    (by
      intro m hmIcc hnonempty
      rw [Finset.mem_Icc] at hmIcc
      obtain ⟨hlow, hhigh⟩ := hmIcc
      interval_cases m <;>
        first
          | exact absurd (by decide) hnonempty
          | norm_num [monthMean, monthPrices, List.filter_cons, samplePoint])
  ⟨hall 1 (by decide), hall 12 (by decide)⟩

/-- Period-over-period relative returns, real-valued (faithful model of
the confidence estimator for claim C5). -/
noncomputable def returnsOfR (hist : List ℝ) : List ℝ :=
  List.zipWith (fun prev cur => (cur - prev) / prev) hist hist.tail

/-- Volatility: the root of the mean squared return (Math.sqrt made exact
as Real.sqrt). -/
noncomputable def volatilityR (hist : List ℝ) : ℝ :=
  Real.sqrt (((returnsOfR hist).map (fun r => r * r)).sum /
    ((returnsOfR hist).length : ℝ))

/-- z-score of the confidence level, real-valued. -/
noncomputable def zScoreR (confidenceLevel : ℝ) : ℝ :=
  if confidenceLevel = 0.95 then 1.96
  else if confidenceLevel = 0.99 then 2.58 else 1.645

/-- calculateConfidenceIntervals, real-valued: lower and upper bounds with
the sqrt(i + 1) time adjustment at (0-based) index i. -/
noncomputable def calculateConfidenceIntervalsR (hist preds : List ℝ)
    (confidenceLevel : ℝ) : List ℝ × List ℝ :=
  let volatility := volatilityR hist
  let z := zScoreR confidenceLevel
  (mapWithIndex (fun i pred =>
      pred - z * volatility * pred * Real.sqrt ((i : ℝ) + 1)) 0 preds,
   mapWithIndex (fun i pred =>
      pred + z * volatility * pred * Real.sqrt ((i : ℝ) + 1)) 0 preds)

theorem getD_mapWithIndex (f : ℕ → ℝ → ℝ) :
    ∀ (n i : ℕ) (l : List ℝ), i < l.length →
      (mapWithIndex f n l).getD i 0 = f (n + i) (l.getD i 0) := by
  intro n i l
  induction l generalizing n i with
  | nil => intro h; simp at h
  | cons a as ih =>
    intro h
    cases i with
    | zero => simp [mapWithIndex]
    | succ k =>
      simp only [mapWithIndex, List.getD_cons_succ]
      rw [ih (n + 1) k (by simpa using h)]
      rw [show n + 1 + k = n + (k + 1) by omega]

theorem getD_mem_of_lt (l : List ℝ) (i : ℕ) (h : i < l.length) :
    l.getD i 0 ∈ l := by
  induction l generalizing i with
  | nil => simp at h
  | cons a as ih =>
    cases i with
    | zero => simp
    | succ k =>
      simp only [List.getD_cons_succ]
      exact List.mem_cons_of_mem _ (ih k (by simpa using h))

theorem sorted_getD_le (l : List ℝ) (hs : List.Sorted (· ≤ ·) l) :
    ∀ i j, i < l.length → j < l.length → i ≤ j → l.getD i 0 ≤ l.getD j 0 := by
  induction l with
  | nil => intro i j hi _ _; simp at hi
  | cons a as ih =>
    intro i j hi hj hij
    rw [List.sorted_cons] at hs
    cases i with
    | zero =>
      cases j with
      | zero => simp
      | succ k =>
        simp only [List.getD_cons_zero, List.getD_cons_succ]
        exact hs.1 _ (getD_mem_of_lt as k (by simpa using hj))
    | succ k =>
      cases j with
      | zero => omega
      | succ k2 =>
        simp only [List.getD_cons_succ]
        exact ih hs.2 k k2 (by simpa using hi) (by simpa using hj) (by omega)

theorem zScoreR_pos (confidenceLevel : ℝ) : 0 < zScoreR confidenceLevel := by
  unfold zScoreR
  split_ifs <;> norm_num

theorem volatilityR_nonneg (hist : List ℝ) : 0 ≤ volatilityR hist :=
  Real.sqrt_nonneg _

/-- Counterexample to claim C5 as stated: with history [1, 2] (volatility
1 > 0) and predictions [100, -1], the interval at index 1 is inverted
(upper < lower, because the prediction is negative) and the interval width
strictly decreases from index 0 to index 1. -/
theorem calculateConfidenceIntervalsR_cex :
    0 < volatilityR [1, 2] ∧
    (calculateConfidenceIntervalsR [1, 2] [100, -1] 0.95).2.getD 1 0 <
      (calculateConfidenceIntervalsR [1, 2] [100, -1] 0.95).1.getD 1 0 ∧
    ((calculateConfidenceIntervalsR [1, 2] [100, -1] 0.95).2.getD 1 0 -
        (calculateConfidenceIntervalsR [1, 2] [100, -1] 0.95).1.getD 1 0) <
      ((calculateConfidenceIntervalsR [1, 2] [100, -1] 0.95).2.getD 0 0 -
        (calculateConfidenceIntervalsR [1, 2] [100, -1] 0.95).1.getD 0 0) := by
  have hret : returnsOfR [1, 2] = [1] := by
    norm_num [returnsOfR]
  have hvol : volatilityR [1, 2] = 1 := by
    unfold volatilityR
    rw [hret]
    norm_num
  have hz : zScoreR (0.95 : ℝ) = 1.96 := by
    unfold zScoreR
    rw [if_pos rfl]
  have hs2 : 0 < Real.sqrt 2 := Real.sqrt_pos.mpr (by norm_num)
  refine ⟨by rw [hvol]; norm_num, ?_, ?_⟩ <;>
  · simp only [calculateConfidenceIntervalsR, mapWithIndex, hvol, hz]
    norm_num [List.getD, Real.sqrt_one]
    try nlinarith [hs2]

/-- Claim C5 as amended: every interval whose own prediction is
non-negative is well-ordered (lower ≤ upper); and when the volatility is
positive and the predictions are non-negative and non-decreasing, the
interval width is non-decreasing in the prediction index.  (As stated the
claim fails: a negative prediction inverts its interval, and a decreasing
prediction sequence shrinks the width, since the width is
2·z·volatility·pred·sqrt(i + 1), proportional to the prediction itself.) -/
theorem calculateConfidenceIntervalsR_bounds (hist preds : List ℝ)
    (confidenceLevel : ℝ) :
    (∀ i, i < preds.length → 0 ≤ preds.getD i 0 →
      (calculateConfidenceIntervalsR hist preds confidenceLevel).1.getD i 0 ≤
        (calculateConfidenceIntervalsR hist preds confidenceLevel).2.getD i 0) ∧
    (0 < volatilityR hist → (∀ p ∈ preds, 0 ≤ p) →
      List.Sorted (· ≤ ·) preds →
      ∀ i j, i < preds.length → j < preds.length → i ≤ j →
        (calculateConfidenceIntervalsR hist preds confidenceLevel).2.getD i 0 -
            (calculateConfidenceIntervalsR hist preds confidenceLevel).1.getD i 0 ≤
          (calculateConfidenceIntervalsR hist preds confidenceLevel).2.getD j 0 -
            (calculateConfidenceIntervalsR hist preds confidenceLevel).1.getD j 0) := by
  have hL : ∀ i, i < preds.length →
      (calculateConfidenceIntervalsR hist preds confidenceLevel).1.getD i 0 =
        preds.getD i 0 - zScoreR confidenceLevel * volatilityR hist *
          preds.getD i 0 * Real.sqrt ((i : ℝ) + 1) := by
    intro i hi
    show (mapWithIndex _ 0 preds).getD i 0 = _
    rw [getD_mapWithIndex _ 0 i preds hi]
    rw [show 0 + i = i by omega]
  have hU : ∀ i, i < preds.length →
      (calculateConfidenceIntervalsR hist preds confidenceLevel).2.getD i 0 =
        preds.getD i 0 + zScoreR confidenceLevel * volatilityR hist *
          preds.getD i 0 * Real.sqrt ((i : ℝ) + 1) := by
    intro i hi
    show (mapWithIndex _ 0 preds).getD i 0 = _
    rw [getD_mapWithIndex _ 0 i preds hi]
    rw [show 0 + i = i by omega]
  have hz0 : 0 < zScoreR confidenceLevel := zScoreR_pos confidenceLevel
  have hvol0 : 0 ≤ volatilityR hist := volatilityR_nonneg hist
  constructor
  · intro i hi hp
    rw [hL i hi, hU i hi]
    have hterm : 0 ≤ zScoreR confidenceLevel * volatilityR hist *
        preds.getD i 0 * Real.sqrt ((i : ℝ) + 1) := by
      apply mul_nonneg
      apply mul_nonneg
      apply mul_nonneg (le_of_lt hz0) hvol0
      exact hp
      exact Real.sqrt_nonneg _
    linarith
  · intro _ hnn hsorted i j hi hj hij
    rw [hL i hi, hU i hi, hL j hj, hU j hj]
    have hpi : 0 ≤ preds.getD i 0 := hnn _ (getD_mem_of_lt preds i hi)
    have hpj : 0 ≤ preds.getD j 0 := hnn _ (getD_mem_of_lt preds j hj)
    have hpij : preds.getD i 0 ≤ preds.getD j 0 :=
      sorted_getD_le preds hsorted i j hi hj hij
    have hsij : Real.sqrt ((i : ℝ) + 1) ≤ Real.sqrt ((j : ℝ) + 1) := by
      apply Real.sqrt_le_sqrt
      have : (i : ℝ) ≤ (j : ℝ) := by exact_mod_cast hij
      linarith
    have hkey : zScoreR confidenceLevel * volatilityR hist *
        preds.getD i 0 * Real.sqrt ((i : ℝ) + 1) ≤
        zScoreR confidenceLevel * volatilityR hist *
        preds.getD j 0 * Real.sqrt ((j : ℝ) + 1) := by
      rw [mul_assoc (zScoreR confidenceLevel * volatilityR hist),
        mul_assoc (zScoreR confidenceLevel * volatilityR hist)]
      apply mul_le_mul_of_nonneg_left
      · exact mul_le_mul hpij hsij (Real.sqrt_nonneg _) hpj
      · exact mul_nonneg (le_of_lt hz0) hvol0
    linarith

/-- Witness for the amended C5 at history [1, 2] (volatility 1) and the
non-negative, non-decreasing predictions [1, 2], with every hypothesis
discharged: the interval at index 0 is well-ordered and the width grows
from index 0 to index 1. -/
theorem calculateConfidenceIntervalsR_bounds_witness :
    ((calculateConfidenceIntervalsR [1, 2] [1, 2] 0.95).1.getD 0 0 ≤
      (calculateConfidenceIntervalsR [1, 2] [1, 2] 0.95).2.getD 0 0) ∧
    ((calculateConfidenceIntervalsR [1, 2] [1, 2] 0.95).2.getD 0 0 -
        (calculateConfidenceIntervalsR [1, 2] [1, 2] 0.95).1.getD 0 0 ≤
      (calculateConfidenceIntervalsR [1, 2] [1, 2] 0.95).2.getD 1 0 -
        (calculateConfidenceIntervalsR [1, 2] [1, 2] 0.95).1.getD 1 0) :=
  ⟨(calculateConfidenceIntervalsR_bounds [1, 2] [1, 2] 0.95).1 0
      (by norm_num) (by norm_num [List.getD_cons_zero]),
   (calculateConfidenceIntervalsR_bounds [1, 2] [1, 2] 0.95).2
      (by
        have hret : returnsOfR [1, 2] = [1] := by norm_num [returnsOfR]
        have hvol : volatilityR [1, 2] = 1 := by
          unfold volatilityR
          rw [hret]
          norm_num
        rw [hvol]
        norm_num)
      (by
        intro p hp
        rcases List.mem_cons.1 hp with rfl | hp2
        · norm_num
        · rcases List.mem_cons.1 hp2 with rfl | hp3
          · norm_num
          · simp at hp3)
      (by norm_num [List.sorted_cons])
      0 1 (by norm_num) (by norm_num) (by norm_num)⟩
